/-
Verification of the nakama-go realtime connection subsystem: the WebSocket
adapter (Connect/Send/Close/IsOpen and its receive loop), the base64
payload codec for match_data_send / party_data_send envelopes, and the
session-refresh gating of authenticated client calls.

The Go source is embedded shallowly: maps become association lists, in-place
mutation becomes explicit state passing, the WebSocket transport and the REST
backend become explicit environments of outcomes, and goroutine interleaving
is not modelled (each operation is an atomic state transition, which is what
the adapter's single mutex enforces for the handle).
-/
import Mathlib

set_option maxHeartbeats 1000000

/-- A Go `error` value, identified by its message string. -/
structure GoError where
  message : String
deriving DecidableEq, Repr

/-! ## Base64 (Go `encoding/base64` StdEncoding)

`handleEncodedData` calls `base64.StdEncoding.EncodeToString`, and
`decodeReceivedData` calls `base64.StdEncoding.DecodeString`.  Bytes are
modelled as `Nat` values below 256. -/

/-- The standard base64 alphabet, as indexed by `EncodeToString`. -/
def b64Alphabet : List Char :=
  ['A','B','C','D','E','F','G','H','I','J','K','L','M','N','O','P',
   'Q','R','S','T','U','V','W','X','Y','Z',
   'a','b','c','d','e','f','g','h','i','j','k','l','m','n','o','p',
   'q','r','s','t','u','v','w','x','y','z',
   '0','1','2','3','4','5','6','7','8','9','+','/']

/-- The alphabet character for a sextet. -/
def b64Char (n : Nat) : Char := b64Alphabet.getD n 'A'

/-- The sextet for an alphabet character, `none` for characters outside the
alphabet (including the pad character). -/
def b64Index (c : Char) : Option Nat := b64Alphabet.findIdx? (fun a => a = c)

/-- Go `base64.StdEncoding.EncodeToString`: three bytes per four characters,
with `=` padding closing a final one- or two-byte group. -/
def b64EncodeChunks : List Nat → List Char
  | [] => []
  | [a] => [b64Char (a / 4), b64Char (a % 4 * 16), '=', '=']
  | [a, b] => [b64Char (a / 4), b64Char (a % 4 * 16 + b / 16), b64Char (b % 16 * 4), '=']
  | a :: b :: c :: rest =>
      b64Char (a / 4) :: b64Char (a % 4 * 16 + b / 16) ::
      b64Char (b % 16 * 4 + c / 64) :: b64Char (c % 64) :: b64EncodeChunks rest

/-- Go `base64.StdEncoding.DecodeString` on the character list: the input must
split into four-character groups, `=` padding may close only the final group,
and (as in Go) non-zero trailing bits in a padded group are accepted. -/
def b64DecodeGroups : List Char → Option (List Nat)
  | [] => some []
  | c0 :: c1 :: c2 :: c3 :: rest =>
      match b64Index c0, b64Index c1 with
      | some s0, some s1 =>
          if c2 = '=' then
            if c3 = '=' ∧ rest = [] then some [s0 * 4 + s1 / 16] else none
          else
            match b64Index c2 with
            | some s2 =>
                if c3 = '=' then
                  if rest = [] then some [s0 * 4 + s1 / 16, s1 % 16 * 16 + s2 / 4] else none
                else
                  match b64Index c3 with
                  | some s3 =>
                      (b64DecodeGroups rest).map
                        (fun bs => (s0 * 4 + s1 / 16) :: (s1 % 16 * 16 + s2 / 4) ::
                                   (s2 % 4 * 64 + s3) :: bs)
                  | none => none
            | none => none
      | _, _ => none
  | _ => none

/-- Go `base64.StdEncoding.EncodeToString`, producing the wire string. -/
def b64Encode (bs : List Nat) : String := ⟨b64EncodeChunks bs⟩

/-- Go `base64.StdEncoding.DecodeString`, consuming the wire string. -/
def b64Decode (s : String) : Option (List Nat) := b64DecodeGroups s.data

/-! ## Decimal rendering and parsing of op codes

`handleEncodedData` renders an `op_code` with Go `fmt.Sprintf` verb `%v`,
which for integers is the signed decimal representation.  The parser is the
inverse direction of the spec's wire contract ("that string parses back to the
same numeric value"), in `strconv`-style: an optional leading minus sign
followed by decimal digits. -/

/-- The character for a decimal digit. -/
def digitChar10 (d : Nat) : Char := Char.ofNat (48 + d)

/-- Decimal digit characters of `n`, most significant first, empty for `0`;
`fuel` bounds the recursion and any `fuel ≥ n` yields the digits of `n`. -/
def natDecimalAux : Nat → Nat → List Char
  | 0, _ => []
  | fuel + 1, n =>
      if n = 0 then [] else natDecimalAux fuel (n / 10) ++ [digitChar10 (n % 10)]

/-- Go `fmt.Sprintf` verb `%v` on a non-negative integer. -/
def natSprintf (n : Nat) : String := if n = 0 then "0" else ⟨natDecimalAux n n⟩

/-- Go `fmt.Sprintf` verb `%v` on an `int`: signed decimal. -/
def intSprintf (n : Int) : String :=
  if n < 0 then "-" ++ natSprintf n.natAbs else natSprintf n.natAbs

/-- The value of a decimal digit character. -/
def parseDigit10 (c : Char) : Option Nat :=
  if 48 ≤ c.toNat ∧ c.toNat ≤ 57 then some (c.toNat - 48) else none

/-- Left fold of decimal digits onto an accumulator; fails on a non-digit. -/
def parseNatFrom (acc : Nat) : List Char → Option Nat
  | [] => some acc
  | c :: cs =>
      match parseDigit10 c with
      | some d => parseNatFrom (acc * 10 + d) cs
      | none => none

/-- Parse a non-empty all-digit character list as a decimal number. -/
def parseNatList : List Char → Option Nat
  | [] => none
  | c :: cs => parseNatFrom 0 (c :: cs)

/-- Parse a decimal string as a natural number. -/
def parseNatDecimal (s : String) : Option Nat := parseNatList s.data

/-- Parse an optionally minus-signed decimal character list as an integer. -/
def parseIntList : List Char → Option Int
  | [] => none
  | c :: cs =>
      if c = '-' then Option.map (fun m : Nat => -(m : Int)) (parseNatList cs)
      else Option.map (fun m : Nat => (m : Int)) (parseNatFrom 0 (c :: cs))

/-- Parse an optionally minus-signed decimal string as an integer. -/
def parseIntDecimal (s : String) : Option Int := parseIntList s.data

/-! ## In-process envelope values (Go `map[string]interface{}`)

A `GoVal` is a value that can sit inside a Go `map[string]interface{}`
envelope: JSON scalars, `[]byte` payloads, arrays, and nested objects.  Go
maps are modelled as association lists keyed by field name. -/

inductive GoVal where
  | null : GoVal
  | bool : Bool → GoVal
  | num : Int → GoVal
  | str : String → GoVal
  | bytes : List Nat → GoVal
  | arr : List GoVal → GoVal
  | obj : List (String × GoVal) → GoVal

/-- A Go envelope object: field list keyed by name. -/
abbrev GoObj := List (String × GoVal)

/-- Go map read `m[field]`. -/
def objGet (m : GoObj) (k : String) : Option GoVal :=
  match m with
  | [] => none
  | (k', v) :: rest => if k' = k then some v else objGet rest k

/-- Go map write `m[field] = v` (replaces the binding, keeps the position). -/
def objSet (m : GoObj) (k : String) (v : GoVal) : GoObj :=
  match m with
  | [] => [(k, v)]
  | (k', v') :: rest => if k' = k then (k, v) :: rest else (k', v') :: objSet rest k v

/-- UTF-8 bytes of a Go string, as in the conversion `[]byte(s)`. -/
def strBytes (s : String) : List Nat := s.toUTF8.toList.map (fun b => b.toNat)

mutual

/-- Go `fmt.Sprintf` verb `%v` on an envelope value.  Scalars follow Go's
rendering exactly; `op_code` values of composite type are not exercised by the
spec, and for them the rendering is Go's slice form (`[x y z]`), without the
key sorting Go applies when rendering maps. -/
def goSprintf : GoVal → String
  | .null => "<nil>"
  | .bool b => if b then "true" else "false"
  | .num n => intSprintf n
  | .str s => s
  | .bytes bs => "[" ++ String.intercalate " " (bs.map natSprintf) ++ "]"
  | .arr xs => "[" ++ goSprintfList xs ++ "]"
  | .obj fs => "map[" ++ goSprintfObj fs ++ "]"

/-- Space-separated `goSprintf` of the elements of a slice. -/
def goSprintfList : List GoVal → String
  | [] => ""
  | [x] => goSprintf x
  | x :: y :: xs => goSprintf x ++ " " ++ goSprintfList (y :: xs)

/-- Space-separated `key:value` rendering of an object's fields. -/
def goSprintfObj : List (String × GoVal) → String
  | [] => ""
  | [(k, v)] => k ++ ":" ++ goSprintf v
  | (k, v) :: f :: fs => k ++ ":" ++ goSprintf v ++ " " ++ goSprintfObj (f :: fs)

end

mutual

/-- The effect of Go `json.Marshal` followed by `json.Unmarshal` on an
envelope value: a `[]byte` payload is marshalled as its base64 string (Go's
JSON encoding of `[]byte`) and every other value survives unchanged.  This is
how the receive loop's `json.Marshal(decodedMessage)` is observed by the
message-callback after the callback parses the delivered JSON text. -/
def goJsonNormalize : GoVal → GoVal
  | .null => .null
  | .bool b => .bool b
  | .num n => .num n
  | .str s => .str s
  | .bytes bs => .str (b64Encode bs)
  | .arr xs => .arr (goJsonNormalizeList xs)
  | .obj fs => .obj (goJsonNormalizeObj fs)

/-- `goJsonNormalize` over an array. -/
def goJsonNormalizeList : List GoVal → List GoVal
  | [] => []
  | x :: xs => goJsonNormalize x :: goJsonNormalizeList xs

/-- `goJsonNormalize` over an object's fields. -/
def goJsonNormalizeObj : List (String × GoVal) → List (String × GoVal)
  | [] => []
  | (k, v) :: fs => (k, goJsonNormalize v) :: goJsonNormalizeObj fs

end

/-- `handleEncodedData` (websocket_adapter.go): on an outbound envelope, if
`msg[field]` is present and is an object, renders its `op_code` with
`fmt.Sprintf("%v", ·)` and replaces its `data` payload — `[]byte` or `string`
— with the base64 encoding of its bytes. -/
def handleEncodedData (msg : GoObj) (field : String) : GoObj :=
  match objGet msg field with
  | some (.obj sendMap) =>
      let sm1 :=
        match objGet sendMap "op_code" with
        | some opCode => objSet sendMap "op_code" (.str (goSprintf opCode))
        | none => sendMap
      let sm2 :=
        match objGet sm1 "data" with
        | some (.bytes v) => objSet sm1 "data" (.str (b64Encode v))
        | some (.str v) => objSet sm1 "data" (.str (b64Encode (strBytes v)))
        | _ => sm1
      objSet msg field (.obj sm2)
  | _ => msg

/-- `decodeReceivedData` (websocket_adapter.go): on an inbound envelope, if
`msg[field]` is an object whose `data` is a string that decodes as base64,
replaces that string with the decoded bytes; on any mismatch or decode error
the envelope is left unchanged. -/
def decodeReceivedData (msg : GoObj) (field : String) : GoObj :=
  match objGet msg field with
  | some (.obj dataMap) =>
      match objGet dataMap "data" with
      | some (.str encodedStr) =>
          match b64Decode encodedStr with
          | some decodedBytes => objSet msg field (.obj (objSet dataMap "data" (.bytes decodedBytes)))
          | none => msg
      | _ => msg
  | _ => msg

/-! ## The WebSocket adapter (websocket_adapter.go)

The adapter is `socket *websocket.Conn` plus four registered callbacks, all
guarded by one mutex.  The handle is modelled as `Option Nat` (a transport
handle identity), callbacks as registration flags, and each operation returns
the ordered list of observable events (callback invocations, transport closes
and transport writes) it performs.  Dial and write outcomes of the transport
are passed in as explicit parameters. -/

/-- An observable event of the adapter: a callback invocation, a close of the
underlying transport handle, or a wire write on a handle. -/
inductive CbEvent where
  | evOpen : CbEvent
  | evError : GoError → CbEvent
  | evClose : CbEvent
  | evMessage : GoVal → CbEvent
  | sockClose : Nat → CbEvent
  | wireWrite : Nat → GoVal → CbEvent

/-- The adapter state: the guarded connection reference and the registered
callbacks (`nil`-ness of each callback function). -/
structure WebSocketAdapter where
  socket : Option Nat
  hasOnOpen : Bool
  hasOnError : Bool
  hasOnClose : Bool
  hasOnMessage : Bool

/-- `NewWebSocketAdapter()`: zero value, no connection, no callbacks. -/
def NewWebSocketAdapter : WebSocketAdapter :=
  { socket := none, hasOnOpen := false, hasOnError := false,
    hasOnClose := false, hasOnMessage := false }

namespace WebSocketAdapter

/-- `IsOpen()`: whether the connection reference is non-nil. -/
def IsOpen (w : WebSocketAdapter) : Bool := w.socket.isSome

/-- `Close()`: if a handle exists, closes it and clears the reference;
otherwise does nothing.  It returns no error and fires no callback. -/
def Close (w : WebSocketAdapter) : WebSocketAdapter × List CbEvent :=
  match w.socket with
  | some h => ({ w with socket := none }, [.sockClose h])
  | none => (w, [])

/-- `Connect(...)`: dials the URL and stores the result in `w.socket` — `nil`
on a dial failure, in which case the dial error is returned; on success fires
the open-callback (if registered) and starts the receive loop.  `dial` is the
transport's outcome. -/
def Connect (w : WebSocketAdapter) (dial : Except GoError Nat) :
    WebSocketAdapter × List CbEvent × Option GoError :=
  match dial with
  | .error err => ({ w with socket := none }, [], some err)
  | .ok h =>
      ({ w with socket := some h },
       if w.hasOnOpen then [.evOpen] else [], none)

/-- `Send(message)`: fails when no handle is held; otherwise runs
`handleEncodedData` on the two outbound kinds (mutating the caller's map,
returned here as the second component), marshals, and writes one frame.
`writeErr` is the transport's outcome for the write; a failed write changes
no connection state.  `json.Marshal` cannot fail on envelope values, so the
marshal-error return is not reachable in this domain. -/
def Send (w : WebSocketAdapter) (message : GoVal) (writeErr : Option GoError) :
    WebSocketAdapter × GoVal × List CbEvent × Option GoError :=
  match w.socket with
  | none => (w, message, [], some ⟨"WebSocket is not connected"⟩)
  | some h =>
      let message' :=
        match message with
        | .obj msgMap =>
            GoVal.obj (handleEncodedData (handleEncodedData msgMap "match_data_send")
              "party_data_send")
        | other => other
      match writeErr with
      | some err => (w, message', [], some err)
      | none => (w, message', [.wireWrite h (goJsonNormalize message')], none)

end WebSocketAdapter

/-- One inbound occurrence seen by the receive loop: either `ReadMessage`
returns an error (`abnormal` is `websocket.IsUnexpectedCloseError`), or a text
frame arrives and `parsed` is the outcome of `json.Unmarshal` into
`map[string]interface{}`. -/
inductive InEvent where
  | readErr : Bool → GoError → InEvent
  | frame : Except GoError GoObj → InEvent

namespace WebSocketAdapter

/-- The receive loop `listen()`: one iteration per inbound occurrence.  On a
read error it fires the error-callback (and, for an abnormal closure, the
close-callback) only when the handle snapshot is still non-nil, calls
`Close()`, and breaks — later occurrences are never seen.  On a parse error
it fires the error-callback and continues.  On a parsed frame it decodes the
two inbound kinds and delivers the re-marshalled object to the
message-callback. -/
def listen (w : WebSocketAdapter) : List InEvent → WebSocketAdapter × List CbEvent
  | [] => (w, [])
  | .readErr abnormal err :: _ =>
      if w.socket.isSome then
        let errEvs := if w.hasOnError then [CbEvent.evError err] else []
        let closeEvs := if abnormal ∧ w.hasOnClose then [CbEvent.evClose] else []
        let closed := Close w
        (closed.1, errEvs ++ closeEvs ++ closed.2)
      else (w, [])
  | .frame (.error err) :: rest =>
      let errEvs := if w.hasOnError then [CbEvent.evError err] else []
      let next := listen w rest
      (next.1, errEvs ++ next.2)
  | .frame (.ok decodedMessage) :: rest =>
      let decoded := decodeReceivedData (decodeReceivedData decodedMessage "match_data")
        "party_data"
      let msgEvs :=
        if w.hasOnMessage then [CbEvent.evMessage (goJsonNormalize (.obj decoded))] else []
      let next := listen w rest
      (next.1, msgEvs ++ next.2)

end WebSocketAdapter

/-! ## Session and session-aware client (client.go)

`Session.IsExpired` and `Session.Update` are declared in the session source
file, which is not part of the repository snapshot; both are modelled from
the spec.  The REST surface is an external collaborator: each call's outcome
is passed in as an `ApiEnv`. -/

/-- A user session: credential pair plus expiry metadata. -/
structure Session where
  Token : String
  RefreshToken : String
  Created : Bool
  CreatedAt : Int
  ExpiresAt : Option Int
  RefreshExpiresAt : Option Int

/-- Modelled from the spec: `Session.IsExpired` (session source file missing
from the snapshot) — whether "the access token's computed expiry", when
known, "has passed" relative to the supplied time. -/
def Session.IsExpired (s : Session) (t : Int) : Bool :=
  match s.ExpiresAt with
  | some e => decide (e < t)
  | none => false

/-- Modelled from the spec: `Session.Update` (session source file missing
from the snapshot) — a successful refresh "replaces both tokens in place,
preserving identity". -/
def Session.Update (s : Session) (token refreshToken : String) : Session :=
  { s with Token := token, RefreshToken := refreshToken }

/-- `ApiSession` (api.go): the token pair returned by the REST surface. -/
structure ApiSession where
  Created : Bool
  RefreshToken : String
  Token : String

/-- The outcomes the REST collaborator would return for each call a claim
exercises: the session-refresh exchange and the two gated operations (for
the latter, `Bool` is `response != nil`). -/
structure ApiEnv where
  sessionRefresh : Except GoError ApiSession
  addGroupUsers : Except GoError Bool
  addFriends : Except GoError Bool

/-- The `Client` configuration fields the claims exercise. -/
structure Client where
  ExpiredTimespanMs : Int
  ServerKey : String
  Host : String
  Port : String
  UseSSL : Bool
  Timeout : Int
  AutoRefreshSession : Bool

/-- `Client.RefreshSession`: nil guard, the two advisory lifetime warnings,
then the refresh exchange; on its error the error is returned and the session
left untouched, on success the session's tokens are updated in place.  The
first component is the caller's session object after the call. -/
def Client.RefreshSession (c : Client) (env : ApiEnv) (session : Option Session) :
    Option Session × Except GoError Session × List String :=
  match session with
  | none => (none, .error ⟨"cannot refresh a null session"⟩, [])
  | some s =>
      let warns1 :=
        match s.ExpiresAt with
        | some e => if e - s.CreatedAt < 70 then ["Session lifetime too short"] else []
        | none => []
      let warns2 :=
        match s.RefreshExpiresAt with
        | some e => if e - s.CreatedAt < 3700 then ["Session refresh lifetime too short"] else []
        | none => []
      match env.sessionRefresh with
      | .error err => (some s, .error err, warns1 ++ warns2)
      | .ok apiSession =>
          let s' := s.Update apiSession.Token apiSession.RefreshToken
          (some s', .ok s', warns1 ++ warns2)

/-- Which collaborator calls a gated operation performed: how many times the
refresh exchange ran, how many times the underlying API call ran, and the
bearer token the API call carried. -/
structure CallTrace where
  refreshCalls : Nat
  apiCalls : Nat
  apiToken : Option String

/-- `Client.AddGroupUsers`: the pre-flight refresh gate, then the API call
with the session's (possibly refreshed) token.  `nowMs` is
`time.Now().UnixMilli()`. -/
def Client.AddGroupUsers (c : Client) (env : ApiEnv) (nowMs : Int) (session : Session) :
    Session × (Bool × Option GoError) × CallTrace :=
  if c.AutoRefreshSession ∧ session.RefreshToken ≠ "" ∧
      session.IsExpired ((nowMs + c.ExpiredTimespanMs) / 1000) then
    let refreshed := c.RefreshSession env (some session)
    let s1 := refreshed.1.getD session
    match refreshed.2.1 with
    | .error err => (s1, (false, some err), ⟨1, 0, none⟩)
    | .ok _ =>
        match env.addGroupUsers with
        | .error err => (s1, (false, some err), ⟨1, 1, some s1.Token⟩)
        | .ok b => (s1, (b, none), ⟨1, 1, some s1.Token⟩)
  else
    match env.addGroupUsers with
    | .error err => (session, (false, some err), ⟨0, 1, some session.Token⟩)
    | .ok b => (session, (b, none), ⟨0, 1, some session.Token⟩)

/-- `Client.AddFriends`: identical gate, different underlying call. -/
def Client.AddFriends (c : Client) (env : ApiEnv) (nowMs : Int) (session : Session) :
    Session × (Bool × Option GoError) × CallTrace :=
  if c.AutoRefreshSession ∧ session.RefreshToken ≠ "" ∧
      session.IsExpired ((nowMs + c.ExpiredTimespanMs) / 1000) then
    let refreshed := c.RefreshSession env (some session)
    let s1 := refreshed.1.getD session
    match refreshed.2.1 with
    | .error err => (s1, (false, some err), ⟨1, 0, none⟩)
    | .ok _ =>
        match env.addFriends with
        | .error err => (s1, (false, some err), ⟨1, 1, some s1.Token⟩)
        | .ok b => (s1, (b, none), ⟨1, 1, some s1.Token⟩)
  else
    match env.addFriends with
    | .error err => (session, (false, some err), ⟨0, 1, some session.Token⟩)
    | .ok b => (session, (b, none), ⟨0, 1, some session.Token⟩)

/-! ## The loopback echo pipeline (spec §8 scenarios) -/

/-- The outbound data-send envelope the round-trip scenarios exercise. -/
def sendEnvelope (opCode payload : GoVal) : GoObj :=
  [("match_data_send", .obj [("op_code", opCode), ("data", payload)])]

/-- The wire frame `Send` produces for an envelope: `handleEncodedData` on
both outbound kinds, then `json.Marshal` (observed as the normalized value
the frame's JSON text denotes). -/
def wireFrame (opCode payload : GoVal) : GoVal :=
  goJsonNormalize (.obj (handleEncodedData
    (handleEncodedData (sendEnvelope opCode payload) "match_data_send") "party_data_send"))

/-- Modelled from the spec: the loopback echo server of the round-trip
scenarios.  The spec's scenario asserts the received echo is decoded by the
adapter, and the adapter decodes the inbound kinds `match_data` /
`party_data`, so the echo returns each data-send envelope under its inbound
counterpart kind with the same inner object. -/
def loopbackEcho (v : GoVal) : GoVal :=
  match v with
  | .obj fs =>
      .obj (fs.map (fun p =>
        (if p.1 = "match_data_send" then "match_data"
         else if p.1 = "party_data_send" then "party_data" else p.1, p.2)))
  | other => other

/-- The in-memory envelope the receive loop holds for the echoed frame after
`decodeReceivedData`, before re-marshalling it for delivery. -/
def echoDecoded (opCode payload : GoVal) : Option GoObj :=
  match loopbackEcho (wireFrame opCode payload) with
  | .obj fs => some (decodeReceivedData (decodeReceivedData fs "match_data") "party_data")
  | _ => none

/-- An adapter with a live handle and every callback registered. -/
def connectedAdapter : WebSocketAdapter :=
  { socket := some 0, hasOnOpen := true, hasOnError := true,
    hasOnClose := true, hasOnMessage := true }

/-- The full echo pipeline at the adapter level: `Send` on a connected
adapter, each written frame echoed back through the loopback server and fed
to the receive loop, and the values the message-callback receives. -/
def echoDelivered (opCode payload : GoVal) : List GoVal :=
  let sent := connectedAdapter.Send (.obj (sendEnvelope opCode payload)) none
  let frames := sent.2.2.1.filterMap (fun e =>
    match e with
    | CbEvent.wireWrite _ v => some v
    | _ => none)
  let inbound := frames.map (fun f =>
    match loopbackEcho f with
    | .obj fs => InEvent.frame (.ok fs)
    | _ => InEvent.frame (.error ⟨"cannot unmarshal into map"⟩))
  (connectedAdapter.listen inbound).2.filterMap (fun e =>
    match e with
    | CbEvent.evMessage v => some v
    | _ => none)

/-- Reads `v[k1][k2]` from a nested envelope value. -/
def envField (v : GoVal) (k1 k2 : String) : Option GoVal :=
  match v with
  | .obj fs =>
      match objGet fs k1 with
      | some (.obj inner) => objGet inner k2
      | _ => none
  | _ => none

/-- A concrete client configuration (default expiry lookahead, auto-refresh
enabled) for witnesses. -/
def demoClient : Client :=
  { ExpiredTimespanMs := 300000, ServerKey := "defaultkey", Host := "127.0.0.1",
    Port := "7350", UseSSL := false, Timeout := 7000, AutoRefreshSession := true }

/-- A concrete session whose access token expired at time 2000s. -/
def demoSession : Session :=
  { Token := "tok", RefreshToken := "refresh", Created := false, CreatedAt := 1000,
    ExpiresAt := some 2000, RefreshExpiresAt := some 10000 }

/-- A REST environment whose refresh exchange fails. -/
def refreshFailEnv : ApiEnv :=
  { sessionRefresh := .error ⟨"401 Unauthorized"⟩, addGroupUsers := .ok true,
    addFriends := .ok true }

/-- A REST environment whose refresh exchange returns a fresh token pair. -/
def refreshOkEnv : ApiEnv :=
  { sessionRefresh := .ok ⟨false, "newRefresh", "newTok"⟩, addGroupUsers := .ok true,
    addFriends := .ok true }

/-! ## Supporting codec lemmas -/

theorem b64Index_b64Char : ∀ s : Fin 64, b64Index (b64Char s.val) = some s.val := by decide

theorem b64Char_ne_pad : ∀ s : Fin 64, b64Char s.val ≠ '=' := by decide

theorem b64_roundtrip_chunks :
    ∀ bs : List Nat, (∀ x ∈ bs, x < 256) →
      b64DecodeGroups (b64EncodeChunks bs) = some bs
  | [] => fun _ => rfl
  | [a] => fun h => by
      have ha : a < 256 := h a (by simp)
      have h0 : a / 4 < 64 := by omega
      have h1 : a % 4 * 16 < 64 := by omega
      simp only [b64EncodeChunks, b64DecodeGroups,
        b64Index_b64Char ⟨a / 4, h0⟩, b64Index_b64Char ⟨a % 4 * 16, h1⟩]
      rw [if_pos trivial, if_pos (⟨trivial, trivial⟩ : True ∧ True)]
      simp only [Option.some.injEq, List.cons.injEq, and_true]
      omega
  | [a, b] => fun h => by
      have ha : a < 256 := h a (by simp)
      have hb : b < 256 := h b (by simp)
      have h0 : a / 4 < 64 := by omega
      have h1 : a % 4 * 16 + b / 16 < 64 := by omega
      have h2 : b % 16 * 4 < 64 := by omega
      simp only [b64EncodeChunks, b64DecodeGroups,
        b64Index_b64Char ⟨a / 4, h0⟩, b64Index_b64Char ⟨a % 4 * 16 + b / 16, h1⟩,
        b64Index_b64Char ⟨b % 16 * 4, h2⟩,
        if_neg (b64Char_ne_pad ⟨b % 16 * 4, h2⟩)]
      rw [if_pos trivial, if_pos trivial]
      simp only [Option.some.injEq, List.cons.injEq, and_true]
      omega
  | a :: b :: c :: rest => fun h => by
      have ha : a < 256 := h a (by simp)
      have hb : b < 256 := h b (by simp)
      have hc : c < 256 := h c (by simp)
      have h0 : a / 4 < 64 := by omega
      have h1 : a % 4 * 16 + b / 16 < 64 := by omega
      have h2 : b % 16 * 4 + c / 64 < 64 := by omega
      have h3 : c % 64 < 64 := by omega
      have ih := b64_roundtrip_chunks rest (fun x hx => h x (by simp [hx]))
      match rest with
      | [] =>
        simp only [b64EncodeChunks, b64DecodeGroups,
          b64Index_b64Char ⟨a / 4, h0⟩, b64Index_b64Char ⟨a % 4 * 16 + b / 16, h1⟩,
          b64Index_b64Char ⟨b % 16 * 4 + c / 64, h2⟩, b64Index_b64Char ⟨c % 64, h3⟩,
          if_neg (b64Char_ne_pad ⟨b % 16 * 4 + c / 64, h2⟩),
          if_neg (b64Char_ne_pad ⟨c % 64, h3⟩)]
        simp only [Option.map_some', Option.some.injEq, List.cons.injEq, and_true]
        omega
      | r :: rs =>
        simp only [b64EncodeChunks, b64DecodeGroups,
          b64Index_b64Char ⟨a / 4, h0⟩, b64Index_b64Char ⟨a % 4 * 16 + b / 16, h1⟩,
          b64Index_b64Char ⟨b % 16 * 4 + c / 64, h2⟩, b64Index_b64Char ⟨c % 64, h3⟩,
          if_neg (b64Char_ne_pad ⟨b % 16 * 4 + c / 64, h2⟩),
          if_neg (b64Char_ne_pad ⟨c % 64, h3⟩)]
        rw [ih]
        simp only [Option.map_some', Option.some.injEq, List.cons.injEq, and_true]
        omega

/-- Round trip of the Go base64 codec on byte sequences. -/
theorem b64_roundtrip (bs : List Nat) (h : ∀ x ∈ bs, x < 256) :
    b64Decode (b64Encode bs) = some bs :=
  b64_roundtrip_chunks bs h

theorem parseDigit10_digitChar10 : ∀ d : Fin 10, parseDigit10 (digitChar10 d.val) = some d.val := by
  decide

theorem digitChar10_ne_minus : ∀ d : Fin 10, digitChar10 d.val ≠ '-' := by decide

theorem parseNatFrom_append (l1 l2 : List Char) :
    ∀ acc, parseNatFrom acc (l1 ++ l2) =
      match parseNatFrom acc l1 with
      | some m => parseNatFrom m l2
      | none => none := by
  induction l1 with
  | nil => intro acc; rfl
  | cons c cs ih =>
      intro acc
      simp only [List.cons_append, parseNatFrom]
      cases parseDigit10 c with
      | none => rfl
      | some d => exact ih (acc * 10 + d)

theorem natDecimalAux_parses :
    ∀ fuel n acc, n ≤ fuel →
      parseNatFrom acc (natDecimalAux fuel n) =
        some (acc * 10 ^ (natDecimalAux fuel n).length + n) := by
  intro fuel
  induction fuel with
  | zero =>
      intro n acc hn
      have : n = 0 := by omega
      subst this
      simp [natDecimalAux, parseNatFrom]
  | succ fuel ih =>
      intro n acc hn
      by_cases h0 : n = 0
      · subst h0
        simp [natDecimalAux, parseNatFrom]
      · have hdiv : n / 10 ≤ fuel := by omega
        rw [natDecimalAux, if_neg h0, parseNatFrom_append, ih (n / 10) acc hdiv]
        have hd : n % 10 < 10 := by omega
        simp only [parseNatFrom, parseDigit10_digitChar10 ⟨n % 10, hd⟩,
          List.length_append, List.length_cons, List.length_nil]
        congr 1
        rw [pow_succ, ← mul_assoc]
        generalize acc * 10 ^ (natDecimalAux fuel (n / 10)).length = t
        omega

theorem natDecimalAux_ne_nil (n : Nat) (h : n ≠ 0) : natDecimalAux n n ≠ [] := by
  cases n with
  | zero => exact absurd rfl h
  | succ m =>
      rw [natDecimalAux, if_neg h]
      simp

theorem natDecimalAux_digits :
    ∀ fuel n c, c ∈ natDecimalAux fuel n → ∃ d, d < 10 ∧ c = digitChar10 d := by
  intro fuel
  induction fuel with
  | zero => intro n c hc; simp [natDecimalAux] at hc
  | succ fuel ih =>
      intro n c hc
      rw [natDecimalAux] at hc
      by_cases h0 : n = 0
      · rw [if_pos h0] at hc; simp at hc
      · rw [if_neg h0] at hc
        rcases List.mem_append.mp hc with h | h
        · exact ih _ c h
        · exact ⟨n % 10, by omega, by simpa using h⟩

/-- Round trip of the decimal rendering of a natural number. -/
theorem parseNatDecimal_natSprintf (n : Nat) : parseNatDecimal (natSprintf n) = some n := by
  by_cases h0 : n = 0
  · subst h0; rfl
  · have hne := natDecimalAux_ne_nil n h0
    rcases List.exists_cons_of_ne_nil hne with ⟨c, cs, hcons⟩
    rw [parseNatDecimal, natSprintf, if_neg h0]
    show parseNatList (natDecimalAux n n) = some n
    rw [hcons, parseNatList, ← hcons, natDecimalAux_parses n n 0 le_rfl]
    simp

/-- The decimal rendering of a natural number never begins with a minus sign. -/
theorem natSprintf_head_ne_minus (n : Nat) :
    ∀ c cs, (natSprintf n).data = c :: cs → c ≠ '-' := by
  intro c cs hdata
  by_cases h0 : n = 0
  · subst h0
    have h00 : natSprintf 0 = "0" := rfl
    rw [h00] at hdata
    have h02 : '0' :: ([] : List Char) = c :: cs := hdata
    injection h02 with h1 h2
    subst h1
    decide
  · rw [natSprintf, if_neg h0] at hdata
    have hc : c ∈ natDecimalAux n n := by
      have hl : natDecimalAux n n = c :: cs := hdata
      rw [hl]
      exact List.mem_cons_self c cs
    rcases natDecimalAux_digits n n c hc with ⟨d, hd, rfl⟩
    exact digitChar10_ne_minus ⟨d, hd⟩

/-- Round trip of the signed decimal rendering of an integer. -/
theorem parseIntDecimal_intSprintf (n : Int) : parseIntDecimal (intSprintf n) = some n := by
  by_cases hneg : n < 0
  · rw [intSprintf, if_pos hneg, parseIntDecimal]
    have hdata : ("-" ++ natSprintf n.natAbs).data = '-' :: (natSprintf n.natAbs).data := by
      rw [String.data_append]
      rfl
    rw [hdata, parseIntList, if_pos rfl]
    have h1 : parseNatList (natSprintf n.natAbs).data = some n.natAbs :=
      parseNatDecimal_natSprintf n.natAbs
    rw [h1, Option.map_some']
    congr 1
    omega
  · rw [intSprintf, if_neg hneg, parseIntDecimal]
    have h0 : (natSprintf n.natAbs).data ≠ [] := by
      by_cases h : n.natAbs = 0
      · rw [h]
        decide
      · rw [natSprintf, if_neg h]
        simpa using natDecimalAux_ne_nil n.natAbs h
    rcases List.exists_cons_of_ne_nil h0 with ⟨c, cs, hcons⟩
    rw [hcons, parseIntList, if_neg (natSprintf_head_ne_minus n.natAbs c cs hcons)]
    have h2 : parseNatFrom 0 (c :: cs) = some n.natAbs := by
      have h3 := parseNatDecimal_natSprintf n.natAbs
      rw [parseNatDecimal, hcons, parseNatList] at h3
      exact h3
    rw [h2, Option.map_some']
    congr 1
    omega

/-! ## The claims -/

/-- C1 (counterexample): at payload `0xDE 0xAD 0xBE 0xEF`, the value the
message-callback receives for the echoed envelope does not carry the payload
bytes: the receive loop re-marshals the decoded map, and Go's `json.Marshal`
renders the `[]byte` payload as its base64 string again, so the data field
at the callback is the string `"3q2+7w=="`, not the four bytes. -/
theorem c1_delivery_counterexample :
    (echoDelivered (.num 7) (.bytes [222, 173, 190, 239])).map
        (fun m => envField m "match_data" "data") ≠
      [some (.bytes [222, 173, 190, 239])] := by
  intro h
  have h' : [some (GoVal.str "3q2+7w==")] = [some (GoVal.bytes [222, 173, 190, 239])] := h
  simp at h'

/-- C1 (amended): for every byte payload `p`, the base64 contract itself is
round-trip faithful — the envelope `decodeReceivedData` builds from the
echoed frame holds exactly `p` — but the receive loop then re-marshals that
envelope for delivery, so the message-callback receives the base64 string of
`p` in the data field, from which `p` is exactly recoverable. -/
theorem c1_payload_roundtrip (p : List Nat) (hp : ∀ x ∈ p, x < 256) :
    echoDecoded (.num 7) (.bytes p) =
      some [("match_data", .obj [("op_code", .str "7"), ("data", .bytes p)])] ∧
    echoDelivered (.num 7) (.bytes p) =
      [.obj [("match_data", .obj [("op_code", .str "7"), ("data", .str (b64Encode p))])]] ∧
    b64Decode (b64Encode p) = some p := by
  have hdec := b64_roundtrip p hp
  refine ⟨?_, ?_, hdec⟩
  · simp [echoDecoded, wireFrame, sendEnvelope, handleEncodedData, objGet, objSet,
      loopbackEcho, goJsonNormalize, goJsonNormalizeObj, decodeReceivedData, goSprintf, hdec,
      (show intSprintf 7 = "7" from rfl)]
  · simp [echoDelivered, connectedAdapter, WebSocketAdapter.Send, WebSocketAdapter.listen,
      sendEnvelope, handleEncodedData, objGet, objSet, loopbackEcho, goJsonNormalize,
      goJsonNormalizeObj, decodeReceivedData, goSprintf, hdec,
      (show intSprintf 7 = "7" from rfl), List.filterMap, List.map]

/-- C1 witness: the amended round trip at the spec's four-byte payload. -/
theorem c1_payload_roundtrip_witness :
    (∀ x ∈ ([222, 173, 190, 239] : List Nat), x < 256) ∧
    (echoDecoded (.num 7) (.bytes [222, 173, 190, 239]) =
        some [("match_data", .obj [("op_code", .str "7"),
          ("data", .bytes [222, 173, 190, 239])])] ∧
      echoDelivered (.num 7) (.bytes [222, 173, 190, 239]) =
        [.obj [("match_data", .obj [("op_code", .str "7"),
          ("data", .str (b64Encode [222, 173, 190, 239]))])]] ∧
      b64Decode (b64Encode [222, 173, 190, 239]) = some [222, 173, 190, 239]) :=
  ⟨by decide, c1_payload_roundtrip [222, 173, 190, 239] (by decide)⟩

/-- C2 (counterexample): a parse error does not close the connection and does
not terminate the receive loop — from a connected adapter with every
callback registered, a malformed frame followed by a well-formed frame
leaves the handle in place (no transport close happens) and still delivers
the second frame after firing the error-callback for the first. -/
theorem c2_parse_error_counterexample :
    connectedAdapter.listen [InEvent.frame (.error ⟨"invalid character"⟩),
        InEvent.frame (.ok [("x", .num 1)])] =
      (connectedAdapter,
       [CbEvent.evError ⟨"invalid character"⟩, CbEvent.evMessage (.obj [("x", .num 1)])]) :=
  rfl

/-- C2 (amended): a read error fires the error-callback (and, when abnormal,
the close-callback) only while the handle snapshot is still held, then closes
the handle and terminates the loop; a parse error fires the error-callback
only, performs no close, and the loop continues with the remaining input. -/
theorem c2_read_parse_error_paths (w : WebSocketAdapter) (ab : Bool) (err : GoError)
    (evs : List InEvent) :
    (∀ h, w.socket = some h →
      w.listen (InEvent.readErr ab err :: evs) =
        ({ w with socket := none },
         (if w.hasOnError then [CbEvent.evError err] else []) ++
         (if ab ∧ w.hasOnClose then [CbEvent.evClose] else []) ++ [CbEvent.sockClose h])) ∧
    (w.socket = none → w.listen (InEvent.readErr ab err :: evs) = (w, [])) ∧
    w.listen (InEvent.frame (.error err) :: evs) =
      ((w.listen evs).1,
       (if w.hasOnError then [CbEvent.evError err] else []) ++ (w.listen evs).2) := by
  refine ⟨?_, ?_, ?_⟩
  · intro h hw
    simp [WebSocketAdapter.listen, hw, WebSocketAdapter.Close]
  · intro hw
    simp [WebSocketAdapter.listen, hw]
  · simp [WebSocketAdapter.listen]

/-- C2 witness: the read-error path on a connected adapter with every
callback registered and an abnormal-closure error. -/
theorem c2_read_parse_error_paths_witness :
    connectedAdapter.listen [InEvent.readErr true ⟨"abnormal closure"⟩] =
      ({ connectedAdapter with socket := none },
       [CbEvent.evError ⟨"abnormal closure"⟩, CbEvent.evClose, CbEvent.sockClose 0]) := by
  have h := (c2_read_parse_error_paths connectedAdapter true ⟨"abnormal closure"⟩ []).1 0 rfl
  simpa [connectedAdapter] using h

/-- C3 (counterexample): from an adapter already holding live handle `0`,
`Connect` with a successful dial returns no error and stores the new handle
`1` — it neither fails with a ConnectionError nor preserves the existing
connection. -/
theorem c3_connect_replaces_counterexample :
    connectedAdapter.socket = some 0 ∧
    (connectedAdapter.Connect (.ok 1)).2.2 = none ∧
    (connectedAdapter.Connect (.ok 1)).1.socket = some 1 :=
  ⟨rfl, rfl, rfl⟩

/-- C3 (amended): `Connect` performs no already-connected check.  It always
dials; on success it overwrites the handle with the new connection (silently
replacing any live one) and returns no error, and on failure it stores `nil`
(dropping any live handle) and returns the dial error. -/
theorem c3_connect_no_guard (w : WebSocketAdapter) :
    (∀ h, w.Connect (.ok h) =
      ({ w with socket := some h },
       if w.hasOnOpen then [CbEvent.evOpen] else [], none)) ∧
    (∀ err, w.Connect (.error err) = ({ w with socket := none }, [], some err)) ∧
    (∀ h hOld, w.socket = some hOld →
      (w.Connect (.ok h)).1.socket = some h ∧ (w.Connect (.ok h)).2.2 = none) :=
  ⟨fun _ => rfl, fun _ => rfl, fun _ _ _ => ⟨rfl, rfl⟩⟩

/-- C3 witness: replacement of live handle `0` by handle `1`. -/
theorem c3_connect_no_guard_witness :
    (connectedAdapter.Connect (.ok 1)).1.socket = some 1 ∧
    (connectedAdapter.Connect (.ok 1)).2.2 = none :=
  (c3_connect_no_guard connectedAdapter).2.2 1 0 rfl

/-- C4 (counterexample): after adapter decoding of the echoed envelope, the
op code is not accessible as the original number — `decodeReceivedData` only
touches the data field, so the op code sent as the number `7` is still the
string `"7"` in the decoded envelope. -/
theorem c4_opcode_counterexample :
    envField (.obj ((echoDecoded (.num 7) (.bytes [222, 173, 190, 239])).getD []))
      "match_data" "op_code" ≠ some (.num 7) := by
  intro h
  have h' : some (GoVal.str "7") = some (GoVal.num 7) := h
  simp at h'

/-- C4 (amended): for every op code, numeric or string, the wire
representation produced by `handleEncodedData` is a string; for a numeric
op code that string is its decimal rendering and parses back to the same
value, and a string op code is passed through unchanged.  After adapter
decoding of the echoed envelope the op code remains in that string form (the
original number is recoverable by parsing, but the adapter does not restore
it as a number). -/
theorem c4_opcode_wire_string (n : Int) (s : String) (p : List Nat) :
    envField (wireFrame (.num n) (.bytes p)) "match_data_send" "op_code" =
      some (.str (intSprintf n)) ∧
    parseIntDecimal (intSprintf n) = some n ∧
    envField (wireFrame (.str s) (.bytes p)) "match_data_send" "op_code" = some (.str s) ∧
    echoDecoded (.num n) (.bytes [222, 173, 190, 239]) =
      some [("match_data", .obj [("op_code", .str (intSprintf n)),
        ("data", .bytes [222, 173, 190, 239])])] := by
  refine ⟨?_, parseIntDecimal_intSprintf n, ?_, ?_⟩
  · simp [wireFrame, sendEnvelope, handleEncodedData, objGet, objSet, goJsonNormalize,
      goJsonNormalizeObj, goSprintf, envField]
  · simp [wireFrame, sendEnvelope, handleEncodedData, objGet, objSet, goJsonNormalize,
      goJsonNormalizeObj, goSprintf, envField]
  · simp [echoDecoded, wireFrame, sendEnvelope, handleEncodedData, objGet, objSet,
      loopbackEcho, goJsonNormalize, goJsonNormalizeObj, decodeReceivedData, goSprintf,
      (show b64Decode (b64Encode [222, 173, 190, 239]) = some [222, 173, 190, 239] from rfl)]

/-- C5: the pre-flight refresh gate of `AddGroupUsers` and `AddFriends`.
When auto-refresh is enabled, a refresh token is present and the session is
expired at now-plus-lookahead, exactly one refresh exchange runs before the
underlying call; when the refresh fails its error is returned and the
underlying call never runs; when it succeeds the underlying call runs once
carrying the freshly refreshed token. -/
theorem c5_refresh_gate (c : Client) (env : ApiEnv) (nowMs : Int) (s : Session)
    (hAuto : c.AutoRefreshSession = true) (hTok : s.RefreshToken ≠ "")
    (hExp : s.IsExpired ((nowMs + c.ExpiredTimespanMs) / 1000) = true) :
    ((c.AddGroupUsers env nowMs s).2.2.refreshCalls = 1 ∧
     (∀ err, env.sessionRefresh = .error err →
        (c.AddGroupUsers env nowMs s).2.1 = (false, some err) ∧
        (c.AddGroupUsers env nowMs s).2.2.apiCalls = 0) ∧
     (∀ apiS, env.sessionRefresh = .ok apiS →
        (c.AddGroupUsers env nowMs s).2.2.apiCalls = 1 ∧
        (c.AddGroupUsers env nowMs s).2.2.apiToken = some apiS.Token)) ∧
    ((c.AddFriends env nowMs s).2.2.refreshCalls = 1 ∧
     (∀ err, env.sessionRefresh = .error err →
        (c.AddFriends env nowMs s).2.1 = (false, some err) ∧
        (c.AddFriends env nowMs s).2.2.apiCalls = 0) ∧
     (∀ apiS, env.sessionRefresh = .ok apiS →
        (c.AddFriends env nowMs s).2.2.apiCalls = 1 ∧
        (c.AddFriends env nowMs s).2.2.apiToken = some apiS.Token)) := by
  have hgate : c.AutoRefreshSession ∧ s.RefreshToken ≠ "" ∧
      s.IsExpired ((nowMs + c.ExpiredTimespanMs) / 1000) := ⟨hAuto, hTok, hExp⟩
  constructor
  · refine ⟨?_, ?_, ?_⟩
    · rw [Client.AddGroupUsers, if_pos hgate]
      cases henv : env.sessionRefresh <;>
        cases hapi : env.addGroupUsers <;>
          simp [Client.RefreshSession, henv, hapi]
    · intro err henv
      rw [Client.AddGroupUsers, if_pos hgate]
      simp [Client.RefreshSession, henv]
    · intro apiS henv
      rw [Client.AddGroupUsers, if_pos hgate]
      cases hapi : env.addGroupUsers <;>
        simp [Client.RefreshSession, henv, hapi, Session.Update]
  · refine ⟨?_, ?_, ?_⟩
    · rw [Client.AddFriends, if_pos hgate]
      cases henv : env.sessionRefresh <;>
        cases hapi : env.addFriends <;>
          simp [Client.RefreshSession, henv, hapi]
    · intro err henv
      rw [Client.AddFriends, if_pos hgate]
      simp [Client.RefreshSession, henv]
    · intro apiS henv
      rw [Client.AddFriends, if_pos hgate]
      cases hapi : env.addFriends <;>
        simp [Client.RefreshSession, henv, hapi, Session.Update]

/-- C5 witness: an expired session with auto-refresh on, against a failing
refresh exchange — the gated operation returns the refresh error and the
underlying call count is zero. -/
theorem c5_refresh_gate_witness :
    demoClient.AutoRefreshSession = true ∧
    ((demoClient.AddGroupUsers refreshFailEnv 5000000 demoSession).2.1 =
        (false, some ⟨"401 Unauthorized"⟩) ∧
      (demoClient.AddGroupUsers refreshFailEnv 5000000 demoSession).2.2.apiCalls = 0) :=
  ⟨rfl,
    (c5_refresh_gate demoClient refreshFailEnv 5000000 demoSession rfl (by decide)
      (by decide)).1.2.1 ⟨"401 Unauthorized"⟩ rfl⟩

/-- C6: `Send` with no live handle returns the not-connected error
synchronously, performs no write and no callback, leaves the adapter state
unchanged, and does not touch the caller's envelope. -/
theorem c6_send_not_connected (w : WebSocketAdapter) (hw : w.socket = none)
    (message : GoVal) (writeErr : Option GoError) :
    w.Send message writeErr = (w, message, [], some ⟨"WebSocket is not connected"⟩) := by
  simp [WebSocketAdapter.Send, hw]

/-- C6 witness: `Send` on a freshly constructed adapter. -/
theorem c6_send_not_connected_witness :
    NewWebSocketAdapter.Send (.str "x") none =
      (NewWebSocketAdapter, .str "x", [], some ⟨"WebSocket is not connected"⟩) :=
  c6_send_not_connected NewWebSocketAdapter rfl (.str "x") none

/-- C7: `Close` is idempotent — a second `Close` changes nothing and
performs nothing — it returns no error (its return type carries none), it
never fires the close-callback, and after it the handle is cleared. -/
theorem c7_close_idempotent (w : WebSocketAdapter) :
    (w.Close.1).Close = (w.Close.1, []) ∧
    CbEvent.evClose ∉ w.Close.2 ∧
    (w.Close.1).socket = none := by
  cases hw : w.socket <;> simp [WebSocketAdapter.Close, hw]

/-- C8: `IsOpen` is true exactly when a transport handle is held; it is
false on a fresh adapter, true immediately after a successful `Connect`,
false immediately after `Close`, and false after the receive loop handles a
read failure from a connected state. -/
theorem c8_isopen_iff_handle (w : WebSocketAdapter) :
    (w.IsOpen = true ↔ w.socket ≠ none) ∧
    NewWebSocketAdapter.IsOpen = false ∧
    (∀ h, (w.Connect (.ok h)).1.IsOpen = true) ∧
    (w.Close).1.IsOpen = false ∧
    (∀ h ab err evs, w.socket = some h →
      (w.listen (InEvent.readErr ab err :: evs)).1.IsOpen = false) := by
  refine ⟨?_, rfl, fun h => rfl, ?_, ?_⟩
  · cases hw : w.socket <;> simp [WebSocketAdapter.IsOpen, hw]
  · cases hw : w.socket <;> simp [WebSocketAdapter.Close, hw, WebSocketAdapter.IsOpen]
  · intro h ab err evs hw
    simp [WebSocketAdapter.listen, hw, WebSocketAdapter.Close, WebSocketAdapter.IsOpen]

/-- C8 witness: an abnormal read failure on a connected adapter leaves
`IsOpen` false. -/
theorem c8_isopen_iff_handle_witness :
    (connectedAdapter.listen [InEvent.readErr true ⟨"abnormal closure"⟩]).1.IsOpen = false :=
  (c8_isopen_iff_handle connectedAdapter).2.2.2.2 0 true ⟨"abnormal closure"⟩ [] rfl

/-- C9: for a non-nil session, a failing refresh exchange makes
`RefreshSession` return that error unchanged with the session left exactly
as it was; only a successful exchange mutates the session, replacing both
tokens in place. -/
theorem c9_refresh_no_partial_mutation (c : Client) (env : ApiEnv) (s : Session) :
    (∀ err, env.sessionRefresh = .error err →
      (c.RefreshSession env (some s)).1 = some s ∧
      (c.RefreshSession env (some s)).2.1 = .error err) ∧
    (∀ apiS, env.sessionRefresh = .ok apiS →
      (c.RefreshSession env (some s)).1 = some (s.Update apiS.Token apiS.RefreshToken) ∧
      (c.RefreshSession env (some s)).2.1 = .ok (s.Update apiS.Token apiS.RefreshToken)) := by
  constructor
  · intro err henv
    simp [Client.RefreshSession, henv]
  · intro apiS henv
    simp [Client.RefreshSession, henv]

/-- C9 witness: the failing exchange leaves the demo session untouched and
returns the error unchanged. -/
theorem c9_refresh_no_partial_mutation_witness :
    (demoClient.RefreshSession refreshFailEnv (some demoSession)).1 = some demoSession ∧
    (demoClient.RefreshSession refreshFailEnv (some demoSession)).2.1 =
      .error ⟨"401 Unauthorized"⟩ :=
  (c9_refresh_no_partial_mutation demoClient refreshFailEnv demoSession).1
    ⟨"401 Unauthorized"⟩ rfl

/-- C10: on a connected adapter, `Send` mutates the caller's envelope map in
place — whatever the write outcome, the envelope afterwards is
`handleEncodedData` of both outbound kinds, so a data-send envelope's op
code is now its string form and its data payload its base64 string form. -/
theorem c10_send_mutates_envelope (w : WebSocketAdapter) (h : Nat) (hw : w.socket = some h)
    (msg : GoObj) (writeErr : Option GoError) :
    (w.Send (.obj msg) writeErr).2.1 =
      .obj (handleEncodedData (handleEncodedData msg "match_data_send") "party_data_send") ∧
    ∀ n p,
      envField ((w.Send (.obj (sendEnvelope (.num n) (.bytes p))) writeErr).2.1)
        "match_data_send" "op_code" = some (.str (intSprintf n)) ∧
      envField ((w.Send (.obj (sendEnvelope (.num n) (.bytes p))) writeErr).2.1)
        "match_data_send" "data" = some (.str (b64Encode p)) := by
  constructor
  · cases writeErr <;> simp [WebSocketAdapter.Send, hw]
  · intro n p
    cases writeErr <;>
      simp [WebSocketAdapter.Send, hw, sendEnvelope, handleEncodedData, objGet, objSet,
        goSprintf, envField]

/-- C10 witness: a failed write still leaves the caller's envelope encoded. -/
theorem c10_send_mutates_envelope_witness :
    envField ((connectedAdapter.Send (.obj (sendEnvelope (.num 7) (.bytes [222, 173, 190, 239])))
        (some ⟨"broken pipe"⟩)).2.1) "match_data_send" "op_code" = some (.str (intSprintf 7)) ∧
    envField ((connectedAdapter.Send (.obj (sendEnvelope (.num 7) (.bytes [222, 173, 190, 239])))
        (some ⟨"broken pipe"⟩)).2.1) "match_data_send" "data" =
      some (.str (b64Encode [222, 173, 190, 239])) :=
  (c10_send_mutates_envelope connectedAdapter 0 rfl
    (sendEnvelope (.num 7) (.bytes [222, 173, 190, 239])) (some ⟨"broken pipe"⟩)).2 7
    [222, 173, 190, 239]
